import Mathlib

/-!
Verification of the Legal Intel Dashboard backend (FastAPI + Celery + Redis).

Each definition is a shallow embedding of one function of the repository,
translated from `src/backend/app/...`; the file/line references are given in
the doc comments.  Machine-level concerns (the async event loop, Redis and
database network round-trips, SQL execution) are modelled by explicit state passing:
the database is a list of rows, Redis is an association list, and exceptions
are `Except`/`Option` values.
-/

namespace LegalIntel

/-! ## Python values

`parse_date` (document_tasks.py:23-48) takes `date_str: str | None` and also
guards `isinstance(date_str, str)` because extractor output is untrusted.  A
Python value is therefore modelled as `None`, a string, or anything else. -/

inductive PyVal where
  | none : PyVal
  | str (s : String) : PyVal
  | other : PyVal
deriving DecidableEq, Repr

/-! ## Python `str.strip` and `str.lower` -/

/-- The characters Python's `str.strip()` removes (the ASCII whitespace set;
the documents' strings are ASCII). -/
def pyIsSpace (c : Char) : Bool :=
  c = ' ' || c = '\t' || c = '\n' || c = '\r' || c = '\x0b' || c = '\x0c'

/-- Python `str.strip()`: drop whitespace from both ends. -/
def pyStrip (l : List Char) : List Char :=
  ((l.dropWhile pyIsSpace).reverse.dropWhile pyIsSpace).reverse

/-- Python `str.lower()` on ASCII text. -/
def pyLower (l : List Char) : List Char :=
  l.map Char.toLower

/-! ## `datetime.strptime` for the six formats of `parse_date`

CPython's `_strptime` compiles a format into a regular expression:
  * `%Y` becomes `\d\d\d\d` (exactly four digits);
  * `%m` becomes `(1[0-2]|0[1-9]|[1-9])` (two-digit 01..12, else one digit 1..9);
  * `%d` becomes `(3[01]|[12]\d|0[1-9]|[1-9])` (two-digit 01..31, else 1..9);
  * `%B` becomes the alternation of the locale's full month names, matched
    case-insensitively (the regex is compiled with IGNORECASE);
  * a whitespace run in the format becomes `\s+`;
  * any other character is matched literally;
and raises `ValueError` unless the regex matches the whole input
("unconverted data remains").  `datetime.strptime(...).date()` then validates
the calendar date (month length, leap years, year 1..9999) and raises
`ValueError` on an impossible date.  The alternation candidates are tried in
the regex's order with backtracking; `matchTokens` below reproduces that. -/

inductive FmtTok where
  | year : FmtTok
  | monthNum : FmtTok
  | dayNum : FmtTok
  | monthName : FmtTok
  | lit (c : Char) : FmtTok
  | ws : FmtTok
deriving DecidableEq, Repr

/-- Year, month, day captured so far (strptime's defaults are 1900-01-01). -/
structure DateParts where
  year : Nat
  month : Nat
  day : Nat
deriving DecidableEq, Repr

def digitVal (c : Char) : Nat := c.toNat - 48

/-- Two-digit numeric alternatives of `%m`/`%d`: a two-digit match whose value
lies in `lo..hi` (the regex branches `1[0-2]|0[1-9]` resp. `3[01]|[12]\d|0[1-9]`
jointly accept exactly the two-digit strings 01..hi with a nonzero value). -/
def twoDigitCand (lo hi : Nat) : List Char → List (Nat × List Char)
  | a :: b :: rest =>
    if a.isDigit && b.isDigit then
      let v := digitVal a * 10 + digitVal b
      if lo ≤ v && v ≤ hi then [(v, rest)] else []
    else []
  | _ => []

/-- The one-digit alternative `[1-9]` of `%m`/`%d`. -/
def oneDigitCand : List Char → List (Nat × List Char)
  | a :: rest => if '1' ≤ a && a ≤ '9' then [(digitVal a, rest)] else []
  | _ => []

/-- `%Y`: exactly four digits. -/
def yearCand : List Char → List (Nat × List Char)
  | a :: b :: c :: d :: rest =>
    if a.isDigit && b.isDigit && c.isDigit && d.isDigit then
      [(digitVal a * 1000 + digitVal b * 100 + digitVal c * 10 + digitVal d, rest)]
    else []
  | _ => []

def monthNames : List (String × Nat) :=
  [("january", 1), ("february", 2), ("march", 3), ("april", 4),
   ("may", 5), ("june", 6), ("july", 7), ("august", 8),
   ("september", 9), ("october", 10), ("november", 11), ("december", 12)]

/-- `%B`: a full month name, case-insensitive.  No month name is a prefix of
another, so at most one candidate survives. -/
def monthNameCand (s : List Char) : List (Nat × List Char) :=
  monthNames.filterMap fun p =>
    let pat := p.1.data
    if pyLower (s.take pat.length) = pat then some (p.2, s.drop pat.length) else none

/-- `\s+` alternatives: consume k whitespace characters, longest first
(greedy with backtracking). -/
def wsCand (s : List Char) : List (Unit × List Char) :=
  let run := (s.takeWhile pyIsSpace).length
  (List.range run).map fun i => ((), s.drop (run - i))

/-- The candidates of one token, as `(capture update, rest)` pairs in the
regex's alternation order. -/
def tokCandidates : FmtTok → List Char → List ((DateParts → DateParts) × List Char)
  | .year, s => (yearCand s).map fun p => (fun a => { a with year := p.1 }, p.2)
  | .monthNum, s =>
      (twoDigitCand 1 12 s ++ oneDigitCand s).map fun p =>
        (fun a => { a with month := p.1 }, p.2)
  | .dayNum, s =>
      (twoDigitCand 1 31 s ++ oneDigitCand s).map fun p =>
        (fun a => { a with day := p.1 }, p.2)
  | .monthName, s => (monthNameCand s).map fun p => (fun a => { a with month := p.1 }, p.2)
  | .lit c, s =>
      match s with
      | x :: rest => if x = c then [(id, rest)] else []
      | [] => []
  | .ws, s => (wsCand s).map fun p => (id, p.2)

/-- Backtracking matcher: all full matches of the token list against the
string, in the regex engine's order.  `_strptime` requires the whole input to
be consumed ("unconverted data remains"). -/
def matchTokens : List FmtTok → List Char → DateParts → List DateParts
  | [], s, acc => if s.isEmpty then [acc] else []
  | t :: ts, s, acc =>
      (tokCandidates t s).flatMap fun c => matchTokens ts c.2 (c.1 acc)

/-- A Python `datetime.date` value. -/
structure PyDate where
  year : Nat
  month : Nat
  day : Nat
deriving DecidableEq, Repr

def isLeapYear (y : Nat) : Bool :=
  y % 4 = 0 && (y % 100 ≠ 0 || y % 400 = 0)

def daysInMonth (y m : Nat) : Nat :=
  if m = 2 then (if isLeapYear y then 29 else 28)
  else if m = 4 || m = 6 || m = 9 || m = 11 then 30
  else 31

/-- `datetime.date(y, m, d)`: valid iff 1 ≤ y ≤ 9999 (MINYEAR..MAXYEAR),
1 ≤ m ≤ 12 and 1 ≤ d ≤ length of the month. -/
def mkPyDate (y m d : Nat) : Option PyDate :=
  if 1 ≤ y && y ≤ 9999 && 1 ≤ m && m ≤ 12 && 1 ≤ d && d ≤ daysInMonth y m then
    some ⟨y, m, d⟩
  else
    none

/-- `datetime.strptime(s, fmt).date()` as an `Option` (a `ValueError` — no
regex match, or an impossible calendar date — is `none`). -/
def strptimeDate (fmt : List FmtTok) (s : List Char) : Option PyDate :=
  match matchTokens fmt s ⟨1900, 1, 1⟩ with
  | [] => Option.none
  | acc :: _ => mkPyDate acc.year acc.month acc.day

/-- The format list of `parse_date` (document_tasks.py:32-39), in order:
`%Y-%m-%d`, `%Y/%m/%d`, `%d-%m-%Y`, `%d/%m/%Y`, `%B %d, %Y`, `%d %B %Y`. -/
def parseDateFormats : List (List FmtTok) :=
  [[.year, .lit '-', .monthNum, .lit '-', .dayNum],
   [.year, .lit '/', .monthNum, .lit '/', .dayNum],
   [.dayNum, .lit '-', .monthNum, .lit '-', .year],
   [.dayNum, .lit '/', .monthNum, .lit '/', .year],
   [.monthName, .ws, .dayNum, .lit ',', .ws, .year],
   [.dayNum, .ws, .monthName, .ws, .year]]

/-- The `for fmt in formats: try ... except ValueError: continue` loop of
`parse_date`: the first format that parses wins. -/
def tryFormats : List (List FmtTok) → List Char → Option PyDate
  | [], _ => Option.none
  | f :: fs, s =>
      match strptimeDate f s with
      | some d => some d
      | Option.none => tryFormats fs s

/-- `parse_date` (document_tasks.py:23-48).  `if not date_str or not
isinstance(date_str, str): return None`; then each format is tried on
`date_str.strip()`; `None` when none parses.  The `try/except ValueError`
around `strptime` is the `Option` in `strptimeDate`, so the function is total
by construction. -/
def parse_date (date_str : PyVal) : Option PyDate :=
  match date_str with
  | .none => Option.none
  | .other => Option.none
  | .str s =>
      if s = "" then Option.none
      else tryFormats parseDateFormats (pyStrip s.data)

/-- The claim's description of `parse_date` (C10), in its own words: `None`
for a non-string input, otherwise the six formats are tried in order on the
stripped string and the first that parses is returned, `None` when none does. -/
def parse_date_behaviour (date_str : PyVal) : Option PyDate :=
  match date_str with
  | .str s => tryFormats parseDateFormats (pyStrip s.data)
  | _ => Option.none

/-! ## Data model (models/document.py)

Fields no claim touches (audit stamps, `parties`, `contract_value`,
`confidence_score`, `key_terms`) are elided; `contract_value`/
`confidence_score` are floating-point columns with no role in any claim.
Embedding vectors (`ARRAY(Float)`) are modelled as integer lists: only their
presence or absence ever matters. -/

abbrev EmbeddingVec := List Int

/-- A `document_metadata` row (models/document.py:48-75). -/
structure DocumentMetadata where
  document_id : Nat
  agreement_type : Option String
  governing_law : Option String
  jurisdiction : Option String
  geography : Option String
  industry : Option String
  effective_date : Option PyDate
  expiration_date : Option PyDate
deriving DecidableEq, Repr

/-- A `documents` row (models/document.py:15-45).  `doc_metadata` is the
one-to-one relationship to `document_metadata` (`uselist=False`);
`upload_date` is a timestamp rendered as a number. -/
structure Document where
  id : Nat
  filename : String
  file_path : String
  file_size : Nat
  file_type : String
  upload_date : Nat
  processed : Bool
  processing_error : Option String
  raw_text : Option String
  page_count : Option Nat
  user_id : Nat
  doc_metadata : Option DocumentMetadata
deriving DecidableEq, Repr

/-- A `document_chunks` row (models/document.py:78-96). -/
structure DocumentChunk where
  document_id : Nat
  chunk_index : Nat
  chunk_text : String
  chunk_size : Nat
  embedding : Option EmbeddingVec
deriving DecidableEq, Repr

/-! ## Rate limiter (middleware/rate_limit.py)

Redis counters are an association list from key to count; `INCR` of an absent
key makes it 1.  The `EXPIRE` call only garbage-collects a window's key after
the window has passed and does not change any admission decision, so it is not
part of the state. -/

abbrev CounterStore := List (String × Nat)

def counterGet (st : CounterStore) (k : String) : Nat :=
  match st.lookup k with
  | some n => n
  | Option.none => 0

def counterSet (st : CounterStore) (k : String) (n : Nat) : CounterStore :=
  (k, n) :: st.filter (fun p => p.1 ≠ k)

/-- The fixed-window bucket key of rate_limit.py:47: the request's bucket is
`current_time // window_seconds`. -/
def windowKey (key : String) (window_seconds current_time : Nat) : String :=
  "rate_limit:" ++ key ++ ":" ++ toString (current_time / window_seconds)

/-- `RateLimiter.check_rate_limit` (rate_limit.py:32-54): bucket the request
by `current_time // window_seconds`, `INCR` the bucket's key, admit iff the
incremented count is at most `max_requests`. -/
def check_rate_limit (st : CounterStore) (key : String)
    (max_requests window_seconds current_time : Nat) : CounterStore × Bool :=
  let window_key := windowKey key window_seconds current_time
  let count := counterGet st window_key + 1
  (counterSet st window_key count, count ≤ max_requests)

/-- Python's `in` on strings: substring containment. -/
def strContains (needle haystack : String) : Bool :=
  haystack.data.tails.any (fun t => needle.data.isPrefixOf t)

/-- `rate_limit_dependency` (rate_limit.py:60-105): per-path limits
10 / 50 / 100 per 60-second window, HTTP 429 when not admitted.  The result
is the new counter state and `.error 429` exactly when the limiter refuses. -/
def rate_limit_dependency (st : CounterStore) (path client_ip : String)
    (current_time : Nat) : CounterStore × Except Nat Unit :=
  let identifier := "ip:" ++ client_ip
  let r :=
    if strContains "/upload" path then
      check_rate_limit st identifier 10 60 current_time
    else if strContains "/query" path then
      check_rate_limit st identifier 50 60 current_time
    else
      check_rate_limit st identifier 100 60 current_time
  (r.1, if r.2 then .ok () else .error 429)

/-! ## Cache (middleware/cache.py)

Redis holds `json.dumps(value)` under the key, with a `SETEX` expiry;
`CacheService.get` applies `json.loads`.  On JSON-representable values
`loads ∘ dumps` is the identity on the JSON tree, so the store is modelled as
holding the JSON tree together with its expiry instant; `jsonDumps` below
renders the tree so that the `if value:` truthiness test of `get` can be
modelled faithfully (no `dumps` output is the empty, falsy string). -/

inductive JsonVal where
  | null : JsonVal
  | bool (b : Bool) : JsonVal
  | num (n : Int) : JsonVal
  | str (s : String) : JsonVal
  | arr (l : List JsonVal) : JsonVal
  | obj (l : List (String × JsonVal)) : JsonVal

mutual

/-- `json.dumps` (string escaping beyond the quotes is immaterial:
only nonemptiness of the output is ever used). -/
def jsonDumps : JsonVal → String
  | .null => "null"
  | .bool true => "true"
  | .bool false => "false"
  | .num n => toString n
  | .str s => "\"" ++ s ++ "\""
  | .arr l => "[" ++ jsonDumpsArr l ++ "]"
  | .obj l => "\x7b" ++ jsonDumpsObj l ++ "\x7d"

def jsonDumpsArr : List JsonVal → String
  | [] => ""
  | [v] => jsonDumps v
  | v :: rest => jsonDumps v ++ ", " ++ jsonDumpsArr rest

def jsonDumpsObj : List (String × JsonVal) → String
  | [] => ""
  | [p] => "\"" ++ p.1 ++ "\": " ++ jsonDumps p.2
  | p :: rest => "\"" ++ p.1 ++ "\": " ++ jsonDumps p.2 ++ ", " ++ jsonDumpsObj rest

end

/-- The Redis keyspace seen by `CacheService`: key, stored JSON tree, expiry
instant (`SETEX k ttl v` at time `now` sets the expiry to `now + ttl`). -/
abbrev CacheStore := List (String × JsonVal × Nat)

def cacheLookup (st : CacheStore) (k : String) : Option (JsonVal × Nat) :=
  st.lookup k

/-- `ttl = ttl or self.default_ttl` (cache.py:92): `None` — and the falsy
`0` — become the fixed default of 300 seconds. -/
def resolveTtl (ttl : Option Nat) : Nat :=
  match ttl with
  | some n => if n = 0 then 300 else n
  | Option.none => 300

/-- `CacheService.set` (cache.py:77-93): `SETEX key ttl json.dumps(value)`. -/
def cacheSet (st : CacheStore) (k : String) (v : JsonVal) (ttl : Option Nat)
    (now : Nat) : CacheStore :=
  (k, v, now + resolveTtl ttl) :: st.filter (fun p => p.1 ≠ k)

/-- `CacheService.get` (cache.py:57-75): `GET key`; an absent or expired key
reads as `None` in Redis, a present value is truthiness-tested and
`json.loads`-ed. -/
def cacheGet (st : CacheStore) (k : String) (now : Nat) : Option JsonVal :=
  match cacheLookup st k with
  | Option.none => Option.none
  | some (v, expiry) =>
      if now < expiry then
        if jsonDumps v ≠ "" then some v else Option.none
      else Option.none

/-- `CacheService.delete` (cache.py:95-108): `DEL key`. -/
def cacheDelete (st : CacheStore) (k : String) : CacheStore :=
  st.filter (fun p => p.1 ≠ k)

/-! ## Query service (services/query_service.py) -/

/-- In `_fetch_matching_documents` (query_service.py:182-186) the base where
clause is `and_(Document.user_id == user_id, Document.processed is True)`.
`Document.processed` is a SQLAlchemy column object, so the Python `is`
operator compares that object by identity with `True` and yields the plain
boolean `False` before any SQL exists; `and_` coerces the constant `False`
into the SQL `false` clause.  (Contrast `Document.processed == True` used
correctly in `get_query_suggestions`, query_service.py:328.)  The clause the
query actually carries is therefore this constant.  The same expression
appears in `DashboardService.get_dashboard_stats` (dashboard_service.py:48). -/
def processed_is_true_clause : Bool := false

/-- The dict `_analyze_query` returns: fields in insertion order. -/
structure QueryAnalysis where
  fields_needed : List String
  filters : List (String × String)
  return_fields : List String
deriving DecidableEq, Repr

/-- `_rule_based_analysis` (query_service.py:132-166): substring checks on the
lowercased question populate `filters` (and `fields_needed`) in the code's
insertion order: governing_law, then agreement_type, then industry. -/
def rule_based_analysis (question : String) : QueryAnalysis :=
  let ql := String.mk (pyLower question.data)
  let gl : List (String × String) :=
    if strContains "uae" ql || strContains "dubai" ql then [("governing_law", "UAE")]
    else if strContains "uk" ql || strContains "english" ql then [("governing_law", "UK")]
    else []
  let at_ : List (String × String) :=
    if strContains "nda" ql || strContains "non-disclosure" ql then [("agreement_type", "NDA")]
    else if strContains "msa" ql || strContains "master service" ql then
      [("agreement_type", "MSA")]
    else []
  let ind : List (String × String) :=
    if strContains "oil" ql || strContains "gas" ql then [("industry", "Oil & Gas")]
    else if strContains "technology" ql || strContains "tech" ql then
      [("industry", "Technology")]
    else []
  { fields_needed := (gl ++ at_ ++ ind).map Prod.fst,
    filters := gl ++ at_ ++ ind,
    return_fields := ["document", "agreement_type", "governing_law"] }

/-- The optional structured `filters` argument of `execute_query`.  `some f`
models a passed, non-empty dict (`if filters:`); a key mapped to the falsy
empty list models an absent or empty entry, for which `filters.get(...)` is
falsy and no clause is added. -/
structure ExtraFilters where
  agreement_types : List String
  jurisdictions : List String
  industries : List String
  geographies : List String
deriving DecidableEq, Repr

/-- One loop iteration of query_service.py:194-202: a clause for the four
recognised field names, no clause otherwise. -/
def analysisFilterClause (field value : String) (m : DocumentMetadata) : Bool :=
  if field = "agreement_type" then m.agreement_type == some value
  else if field = "governing_law" then m.governing_law == some value
  else if field = "jurisdiction" then m.jurisdiction == some value
  else if field = "industry" then m.industry == some value
  else true

/-- `column.in_(vals)` guarded by `if filters.get(key):` — no clause for an
empty list; a SQL NULL is never in a list. -/
def inClause (vals : List String) (v : Option String) : Bool :=
  vals.isEmpty ||
    (match v with
     | some x => vals.contains x
     | Option.none => false)

def extraFilterClause (ef : ExtraFilters) (m : DocumentMetadata) : Bool :=
  inClause ef.agreement_types m.agreement_type &&
  inClause ef.jurisdictions m.jurisdiction &&
  inClause ef.industries m.industry &&
  inClause ef.geographies m.geography

/-- The metadata-side where clauses of `_fetch_matching_documents`
(query_service.py:188-216).  The inner join with `DocumentMetadata` happens
iff the analysis produced filters or a structured filter dict was passed;
a document without a metadata row then drops out. -/
def rowClause (analysisFilters : List (String × String)) (filters : Option ExtraFilters)
    (d : Document) : Bool :=
  match d.doc_metadata with
  | some m =>
      analysisFilters.all (fun p => analysisFilterClause p.1 p.2 m) &&
        (match filters with
         | some ef => extraFilterClause ef m
         | Option.none => true)
  | Option.none => analysisFilters.isEmpty && filters.isNone

def insertSorted (le : Document → Document → Bool) (d : Document) :
    List Document → List Document
  | [] => [d]
  | x :: xs => if le d x then d :: x :: xs else x :: insertSorted le d xs

/-- The ORDER BY of query_service.py:218-230 as a list sort. -/
def orderDocs (sort_by sort_order : String) (l : List Document) : List Document :=
  let le : Document → Document → Bool :=
    if sort_by = "date" then
      if sort_order = "asc" then fun a b => a.upload_date ≤ b.upload_date
      else fun a b => b.upload_date ≤ a.upload_date
    else if sort_by = "document_name" then
      if sort_order = "asc" then fun a b => a.filename ≤ b.filename
      else fun a b => b.filename ≤ a.filename
    else fun a b => b.upload_date ≤ a.upload_date
  l.foldr (insertSorted le) []

/-- `_fetch_matching_documents` (query_service.py:168-242): filter, order,
count the subquery (before OFFSET/LIMIT), then paginate with
`offset = (page - 1) * max_results` and `limit = max_results`. -/
def fetch_matching_documents (db : List Document) (analysis : QueryAnalysis)
    (user_id : Nat) (max_results page : Nat) (filters : Option ExtraFilters)
    (sort_by sort_order : String) : List Document × Nat :=
  let filtered := db.filter fun d =>
    (d.user_id == user_id && processed_is_true_clause) &&
      rowClause analysis.filters filters d
  let total_count := filtered.length
  let ordered := orderDocs sort_by sort_order filtered
  (((ordered.drop ((page - 1) * max_results)).take max_results), total_count)

/-- `execute_query` (query_service.py:42-90) on the deterministic analysis
path: with no API key configured `self.llm is None` and `_analyze_query` is
exactly `_rule_based_analysis` (query_service.py:95-96); the LLM path is an
external API call outside the program.  Returns (page of results,
total_results). -/
def execute_query_no_llm (db : List Document) (question : String) (user_id : Nat)
    (max_results page : Nat) (filters : Option ExtraFilters)
    (sort_by sort_order : String) : List Document × Nat :=
  fetch_matching_documents db (rule_based_analysis question) user_id max_results page
    filters sort_by sort_order

/-- The claim's description of the mass-interrogation query (C1): the user's
processed documents whose metadata satisfies the filters derived from the
question. -/
def claimed_matching_documents (db : List Document) (user_id : Nat)
    (analysisFilters : List (String × String)) : List Document :=
  db.filter fun d =>
    d.user_id == user_id && d.processed &&
      (match d.doc_metadata with
       | some m => analysisFilters.all (fun p => analysisFilterClause p.1 p.2 m)
       | Option.none => analysisFilters.isEmpty)

/-! ## Dashboard service (services/dashboard_service.py) -/

/-- A `Counter` over one metadata column as the function value → multiplicity:
the loop of dashboard_service.py:71-82 increments the counter once per
metadata row carrying that non-null value, and a dict lookup of an absent
key is 0. -/
def counterOf (get : DocumentMetadata → Option String) (metas : List DocumentMetadata) :
    String → Nat :=
  fun v => metas.countP fun m => get m == some v

structure DashboardStats where
  total_documents : Nat
  processed_documents : Nat
  total_pages : Nat
  agreement_types : String → Nat
  jurisdictions : String → Nat
  industries : String → Nat
  geographies : String → Nat

def dashboardCacheKey (user_id : Nat) : String :=
  "dashboard_stats:user:" ++ toString user_id

/-- The computation part of `DashboardService.get_dashboard_stats`
(dashboard_service.py:39-92): counts over the user's documents, SUM of
`page_count` (SQL SUM skips NULLs), and `Counter`s over the metadata rows
joined with the user's documents.  The `governing_law` column feeds the
`jurisdictions` counter.  The processed-documents count carries the
`Document.processed is True` clause (see `processed_is_true_clause`). -/
def compute_dashboard_stats (db : List Document) (user_id : Nat) : DashboardStats :=
  let userDocs := db.filter fun d => d.user_id == user_id
  let metas := userDocs.filterMap (·.doc_metadata)
  { total_documents := userDocs.length,
    processed_documents :=
      (db.filter fun d => d.user_id == user_id && processed_is_true_clause).length,
    total_pages := (userDocs.filterMap (·.page_count)).sum,
    agreement_types := counterOf (·.agreement_type) metas,
    jurisdictions := counterOf (·.governing_law) metas,
    industries := counterOf (·.industry) metas,
    geographies := counterOf (·.geography) metas }

/-- `get_dashboard_stats` (dashboard_service.py:32-97) around the cache: a
cached value is returned as-is; on a miss the stats are computed and written
with TTL 300.  The JSON round-trip of the stats dict through the cache is the
identity, so the cached value is modelled as the stats record itself; the
second component records the TTL of the cache write, if one happened. -/
def get_dashboard_stats (cached : Option DashboardStats) (db : List Document)
    (user_id : Nat) : DashboardStats × Option Nat :=
  match cached with
  | some s => (s, Option.none)
  | Option.none => (compute_dashboard_stats db user_id, some 300)

/-- The claim's description of the processed-documents figure (C4): the
number of the user's documents with `processed` true. -/
def claimed_processed_count (db : List Document) (user_id : Nat) : Nat :=
  (db.filter fun d => d.user_id == user_id && d.processed).length

/-! ## Processing pipeline (tasks/document_tasks.py)

`_process_document` (document_tasks.py:102-217) runs, in program order:
parse the file, extract metadata, chunk and embed (only when the embedding
service is available, with failures swallowed by the inner `try`), then set
`processed = True` and commit.  The outer `except` rolls the transaction
back, re-fetches the row, stores the error message with `processed = False`,
and re-raises.  Outcomes of the delegated steps (file parsing, the LLM
extractor, the splitter, the embeddings API) are the run's environment. -/

inductive PipeEvent where
  | parse : PipeEvent
  | extractMeta : PipeEvent
  | chunk : PipeEvent
  | embed : PipeEvent
  | markProcessed : PipeEvent
deriving DecidableEq, Repr

/-- The dict `MetadataExtractor.extract_metadata` returns; the date entries
are untrusted extractor output fed to `parse_date`. -/
structure MetaDict where
  agreement_type : Option String
  governing_law : Option String
  jurisdiction : Option String
  geography : Option String
  industry : Option String
  effective_date : PyVal
  expiration_date : PyVal
deriving DecidableEq, Repr

/-- The `DocumentMetadata(...)` construction of document_tasks.py:128-142,
dates parsed from strings by `parse_date`. -/
def build_metadata (document_id : Nat) (md : MetaDict) : DocumentMetadata :=
  { document_id,
    agreement_type := md.agreement_type,
    governing_law := md.governing_law,
    jurisdiction := md.jurisdiction,
    geography := md.geography,
    industry := md.industry,
    effective_date := parse_date md.effective_date,
    expiration_date := parse_date md.expiration_date }

/-- The outcomes of the delegated steps for one run of `_process_document`:
`parseResult` is `DocumentParser.parse_document` (text and page count),
`extractResult` the metadata dict, `embeddingAvailable` is
`EmbeddingService.is_available()` (embedding_service.py:111-113, true iff an
API key produced an embeddings client), `chunkResult` is `chunk_text` and
`embedResult` is `generate_embeddings_batch`; an `error` is a raised
exception rendered by `str(e)`. -/
structure PipelineEnv where
  parseResult : Except String (String × Nat)
  extractResult : Except String MetaDict
  embeddingAvailable : Bool
  chunkResult : Except String (List String)
  embedResult : Except String (List EmbeddingVec)

/-- `_process_document` on an existing document row.  (When the row id is
absent the function prints and returns with no change; no claim concerns that
branch.)  The result is the committed row, the created metadata row, the
stored chunk rows, and the trace of completed steps in execution order.
Failures of chunking or embedding are caught by the inner `try`
(document_tasks.py:149-176) and leave no chunk behind; a parse or extraction
failure reaches the outer `except`, which commits `processed = False` and
`processing_error = str(e)` after rollback (so the parse results mutated on
the ORM object are not persisted). -/
def process_document (env : PipelineEnv) (doc : Document) :
    Document × Option DocumentMetadata × List DocumentChunk × List PipeEvent :=
  match env.parseResult with
  | .error e =>
      ({ doc with processed := false, processing_error := some e }, Option.none, [], [])
  | .ok pr =>
    match env.extractResult with
    | .error e =>
        ({ doc with processed := false, processing_error := some e }, Option.none, [],
         [.parse])
    | .ok md =>
      let meta := build_metadata doc.id md
      let ce : List DocumentChunk × List PipeEvent :=
        if env.embeddingAvailable then
          match env.chunkResult with
          | .error _ => ([], [])
          | .ok chunks =>
            if chunks.isEmpty then ([], [.chunk])
            else
              match env.embedResult with
              | .error _ => ([], [.chunk])
              | .ok embeddings =>
                  ((chunks.zip embeddings).enum.map fun p =>
                     { document_id := doc.id, chunk_index := p.1, chunk_text := p.2.1,
                       chunk_size := p.2.1.length, embedding := some p.2.2 },
                   [.chunk, .embed])
        else ([], [])
      ({ doc with raw_text := some pr.1, page_count := some pr.2, processed := true },
       some meta, ce.1, [.parse, .extractMeta] ++ ce.2 ++ [.markProcessed])

/-- The exception the outer `except` of `_process_document` sees, if any:
a parse failure, else an extraction failure (chunk/embed failures never
reach it). -/
def pipeline_failure (env : PipelineEnv) : Option String :=
  match env.parseResult with
  | .error e => some e
  | .ok _ =>
    match env.extractResult with
    | .error e => some e
    | .ok _ => Option.none

/-- The canonical rank of a pipeline step in the order the spec names:
parse, extract metadata, chunk, embed, mark processed. -/
def pipeRank : PipeEvent → Nat
  | .parse => 0
  | .extractMeta => 1
  | .chunk => 2
  | .embed => 3
  | .markProcessed => 4

/-! ## Upload (services/document_service.py, api/v1/endpoints/documents.py) -/

structure UploadFile where
  filename : String
  size : Nat
deriving DecidableEq, Repr

/-- `pathlib.PurePath(name).suffix`: the final component's extension — from
its last dot, empty when that dot is leading, trailing or absent. -/
def pySuffix (filename : String) : String :=
  let name := (filename.data.reverse.takeWhile (fun c => c ≠ '/')).reverse
  match name.reverse.findIdx? (fun c => c = '.') with
  | Option.none => ""
  | some j =>
    let i := name.length - 1 - j
    if 0 < i && i < name.length - 1 then String.mk (name.drop i) else ""

/-- `DocumentService.save_uploaded_file` (document_service.py:43-103):
validate the extension and the 50MB size limit, then create the row with
`processed=False` (and no processing error — the column's default is NULL).
`new_id` is the id the database assigns, `file_hash` the MD5 of the content
used in the stored filename; `upload_date` is the server default, taken as 0
since no claim compares upload instants. -/
def save_uploaded_file (file : UploadFile) (user_id new_id : Nat)
    (file_hash : String) : Except String Document :=
  let file_ext := String.mk (pyLower (pySuffix file.filename).data)
  if file_ext ∉ ([".pdf", ".docx"] : List String) then
    .error "Invalid file type"
  else if file.size > 50 * 1024 * 1024 then
    .error "File too large"
  else
    .ok { id := new_id, filename := file.filename,
          file_path := "/app/uploads/" ++ file_hash ++ "_" ++ file.filename,
          file_size := file.size, file_type := file_ext.drop 1, upload_date := 0,
          processed := false, processing_error := Option.none, raw_text := Option.none,
          page_count := Option.none, user_id, doc_metadata := Option.none }

/-- The loop of `upload_documents` (documents.py:50-86) over the per-file
save outcomes: each saved document gets exactly one
`process_document_task.delay(document.id)` dispatch, each failure is caught
and counted; after the loop the user's dashboard cache key is deleted iff at
least one file was saved.  Returns (successful, failed, dispatched document
ids in order, deleted cache key). -/
def upload_documents (saves : List (Except String Document)) (user_id : Nat) :
    Nat × Nat × List Nat × Option String :=
  let res := saves.foldl
    (fun (acc : Nat × Nat × List Nat) r =>
      match r with
      | .ok d => (acc.1 + 1, acc.2.1, acc.2.2 ++ [d.id])
      | .error _ => (acc.1, acc.2.1 + 1, acc.2.2))
    (0, 0, [])
  (res.1, res.2.1, res.2.2,
   if res.1 > 0 then some (dashboardCacheKey user_id) else Option.none)

/-! ## Document states (C3) -/

/-- The three-state classification the spec names: not processed, processed,
error. -/
inductive DocState where
  | notProcessed : DocState
  | processedOk : DocState
  | errored : DocState
deriving DecidableEq, Repr

def docState (d : Document) : DocState :=
  if d.processed then .processedOk
  else
    match d.processing_error with
    | Option.none => .notProcessed
    | some _ => .errored

/-! ## Get-document endpoint (api/v1/endpoints/documents.py:106-128) -/

/-- `get_document`: the service's `scalar_one_or_none` lookup by primary key
(document_service.py:105-128), then 404 when absent, 403 when owned by a
different user, else the document. -/
def get_document_endpoint (db : List Document) (document_id user_id : Nat) :
    Except Nat Document :=
  match db.find? (fun d => d.id == document_id) with
  | Option.none => .error 404
  | some d => if d.user_id ≠ user_id then .error 403 else .ok d

/-! ## Celery retry (tasks/document_tasks.py:51-99, core/celery_app.py)

`process_document_task` is declared with `autoretry_for=(Exception,)`,
`retry_kwargs={"max_retries": 3, ...}`, `retry_backoff=True`.  Celery's
built-in policy (not repository code): run the task body; when it raises one
of the `autoretry_for` exceptions, re-run it later while fewer than
`max_retries` retries have happened, then let the exception be final.  The
body itself (document_tasks.py:71-99) logs the error of each failed attempt
and re-raises.  `outcome n` is what attempt `n` of the body does; the result
is (final outcome, number of executions of the body, the logged errors in
order).  The backoff pause between attempts is wall-clock behaviour with no
effect on these quantities. -/
def celery_autoretry (outcome : Nat → Except String Unit) :
    Nat → Nat → Except String Unit × Nat × List String
  | retries_left, attempt =>
    match outcome attempt with
    | .ok _ => (.ok (), 1, [])
    | .error e =>
      match retries_left with
      | 0 => (.error e, 1, [e])
      | r + 1 =>
        let k := celery_autoretry outcome r (attempt + 1)
        (k.1, k.2.1 + 1, e :: k.2.2)

/-- The retry driver at the decorated task's parameters: `max_retries = 3`. -/
def process_document_task_runs (outcome : Nat → Except String Unit) :
    Except String Unit × Nat × List String :=
  celery_autoretry outcome 3 0

/-! ## Helper lemmas -/

theorem toDigitsCore_length_le (b f : Nat) :
    ∀ (n : Nat) (ds : List Char), ds.length ≤ (Nat.toDigitsCore b f n ds).length := by
  induction f with
  | zero => intro n ds; simp [Nat.toDigitsCore]
  | succ f ih =>
    intro n ds
    unfold Nat.toDigitsCore
    by_cases h : n / b = 0
    · simp [h]
    · simp only [h, if_neg, ite_false]
      exact le_trans (by simp) (ih (n / b) (Nat.digitChar (n % b) :: ds))

theorem toDigits_length_pos (b n : Nat) : 0 < (Nat.toDigits b n).length := by
  unfold Nat.toDigits Nat.toDigitsCore
  by_cases h : n / b = 0
  · simp [h]
  · simp only [h, if_neg, ite_false]
    exact lt_of_lt_of_le (by simp) (toDigitsCore_length_le b n (n / b) _)

theorem natRepr_ne_empty (n : Nat) : Nat.repr n ≠ "" := by
  intro h
  have hd : (Nat.toDigits 10 n) = ([] : List Char) := congrArg String.data h
  have := toDigits_length_pos 10 n
  rw [hd] at this
  simp at this

theorem intRepr_ne_empty (n : Int) : Int.repr n ≠ "" := by
  cases n with
  | ofNat m => exact natRepr_ne_empty m
  | negSucc m =>
    intro h
    unfold Int.repr at h
    have hl := congrArg String.length h
    rw [String.length_append] at hl
    have h1 : ("-" : String).length = 1 := rfl
    have h2 : ("" : String).length = 0 := rfl
    omega

theorem jsonDumps_ne_empty (v : JsonVal) : jsonDumps v ≠ "" := by
  cases v with
  | null => intro h; exact absurd (congrArg String.length h) (by decide)
  | bool b => cases b <;> (intro h; exact absurd (congrArg String.length h) (by decide))
  | num n =>
    intro h
    apply intRepr_ne_empty n
    calc Int.repr n = jsonDumps (.num n) := by unfold jsonDumps; rfl
      _ = "" := h
  | str s =>
    intro h
    rw [show jsonDumps (.str s) = "\"" ++ s ++ "\"" from by unfold jsonDumps; rfl] at h
    have hl := congrArg String.length h
    rw [String.length_append, String.length_append] at hl
    have h1 : ("\"" : String).length = 1 := rfl
    have h2 : ("" : String).length = 0 := rfl
    omega
  | arr l =>
    intro h
    rw [show jsonDumps (.arr l) = "[" ++ jsonDumpsArr l ++ "]" from by
          unfold jsonDumps; rfl] at h
    have hl := congrArg String.length h
    rw [String.length_append, String.length_append] at hl
    have h1 : ("[" : String).length = 1 := rfl
    have h2 : ("" : String).length = 0 := rfl
    omega
  | obj l =>
    intro h
    rw [show jsonDumps (.obj l) = "\x7b" ++ jsonDumpsObj l ++ "\x7d" from by
          unfold jsonDumps; rfl] at h
    have hl := congrArg String.length h
    rw [String.length_append, String.length_append] at hl
    have h1 : ("\x7b" : String).length = 1 := rfl
    have h2 : ("" : String).length = 0 := rfl
    omega

theorem lookup_removed (l : CacheStore) (k : String) :
    ((l.filter fun p => p.1 ≠ k).lookup k) = Option.none := by
  induction l with
  | nil => rfl
  | cons hd t ih =>
    rw [List.filter_cons]
    by_cases hk : hd.1 = k
    · rw [if_neg (by simp [hk])]; exact ih
    · rw [if_pos (by simp [hk])]
      obtain ⟨k1, v1⟩ := hd
      simp only at hk
      have hb : (k == k1) = false := beq_eq_false_iff_ne.mpr (fun hh => hk hh.symm)
      simp only [List.lookup, hb]
      simpa using ih

theorem celery_autoretry_execs_le (outcome : Nat → Except String Unit) (r : Nat) :
    ∀ a, (celery_autoretry outcome r a).2.1 ≤ r + 1 := by
  induction r with
  | zero => intro a; unfold celery_autoretry; cases outcome a <;> simp
  | succ r ih =>
    intro a
    unfold celery_autoretry
    cases outcome a with
    | ok _ => simp
    | error e => simpa using Nat.succ_le_succ (ih (a + 1))

theorem celery_autoretry_logs (outcome : Nat → Except String Unit) (r : Nat) :
    ∀ a,
      (celery_autoretry outcome r a).2.2.length +
        (match (celery_autoretry outcome r a).1 with
         | .ok _ => 1
         | .error _ => 0) =
      (celery_autoretry outcome r a).2.1 := by
  induction r with
  | zero => intro a; unfold celery_autoretry; cases outcome a <;> simp
  | succ r ih =>
    intro a
    unfold celery_autoretry
    cases outcome a with
    | ok _ => simp
    | error e =>
      have := ih (a + 1)
      simp only [List.length_cons]
      omega

/-! ## The claims -/

/-- C10: `parse_date` is total and never raises: `None` for a `None` or
non-string input, otherwise the six supported formats are tried in order on
the stripped string and the first one that parses wins, `None` when none
parses.  The first conjunct equates the translated code with the claim's own
description; the remaining conjuncts evaluate each supported format, the
stripping, the format order (a two-digit-year string skips `%Y-%m-%d` and is
read day-first), and a failure. -/
theorem parse_date_total_and_tries_formats_in_order :
    (∀ v, parse_date v = parse_date_behaviour v) ∧
    parse_date .none = Option.none ∧
    parse_date .other = Option.none ∧
    parse_date (.str "2024-03-22") = some ⟨2024, 3, 22⟩ ∧
    parse_date (.str "2024/03/22") = some ⟨2024, 3, 22⟩ ∧
    parse_date (.str "22-03-2024") = some ⟨2024, 3, 22⟩ ∧
    parse_date (.str "22/03/2024") = some ⟨2024, 3, 22⟩ ∧
    parse_date (.str "March 22, 2024") = some ⟨2024, 3, 22⟩ ∧
    parse_date (.str "22 March 2024") = some ⟨2024, 3, 22⟩ ∧
    parse_date (.str " 2024-03-22 ") = some ⟨2024, 3, 22⟩ ∧
    parse_date (.str "12-11-2024") = some ⟨2024, 11, 12⟩ ∧
    parse_date (.str "2024-02-30") = Option.none ∧
    parse_date (.str "not a date") = Option.none := by
  refine ⟨?_, by decide, by decide, by decide, by decide, by decide, by decide, by decide,
    by decide, by decide, by decide, by decide, by decide⟩
  intro v
  cases v with
  | none => rfl
  | other => rfl
  | str s =>
    by_cases h : s = ""
    · subst h; decide
    · simp [parse_date, parse_date_behaviour, h]

/-- C5: the rate limiter is a fixed-window counter: requests are bucketed by
`current_time / window_seconds`, the bucket's counter is incremented by one
per request, a request is admitted iff the incremented count is at most
`max_requests`, and `rate_limit_dependency` raises 429 exactly when the
request is not admitted, with limits 10 / 50 / 100 per 60-second window for
paths containing "/upload", containing "/query", and all others. -/
theorem rate_limiter_fixed_window_counter :
    (∀ st key max_requests window_seconds t,
       (check_rate_limit st key max_requests window_seconds t).1 =
         counterSet st (windowKey key window_seconds t)
           (counterGet st (windowKey key window_seconds t) + 1) ∧
       ((check_rate_limit st key max_requests window_seconds t).2 = true ↔
         counterGet st (windowKey key window_seconds t) + 1 ≤ max_requests)) ∧
    (∀ st path ip t,
       (rate_limit_dependency st path ip t).2 = .error 429 ↔
         ¬ (counterGet st (windowKey ("ip:" ++ ip) 60 t) + 1 ≤
              (if strContains "/upload" path then 10
               else if strContains "/query" path then 50
               else 100))) := by
  constructor
  · intro st key max_requests window_seconds t
    exact ⟨rfl, by simp [check_rate_limit]⟩
  · intro st path ip t
    cases hu : strContains "/upload" path
    · cases hq : strContains "/query" path
      · by_cases hP : counterGet st (windowKey ("ip:" ++ ip) 60 t) + 1 ≤ 100 <;>
          simp [rate_limit_dependency, hu, hq, check_rate_limit, hP]
      · by_cases hP : counterGet st (windowKey ("ip:" ++ ip) 60 t) + 1 ≤ 50 <;>
          simp [rate_limit_dependency, hu, hq, check_rate_limit, hP]
    · by_cases hP : counterGet st (windowKey ("ip:" ++ ip) 60 t) + 1 ≤ 10 <;>
        simp [rate_limit_dependency, hu, check_rate_limit, hP]

/-- C6: `process_document_task` retries on any exception at most 3 times, so
the body runs at most 4 times; each failed attempt logs its error (and
re-raises); when every attempt fails the error of the fourth execution is
final and all four errors were logged, in order. -/
theorem process_document_task_retry_policy :
    (∀ outcome, (process_document_task_runs outcome).2.1 ≤ 4) ∧
    (∀ outcome,
       (process_document_task_runs outcome).2.2.length +
         (match (process_document_task_runs outcome).1 with
          | .ok _ => 1
          | .error _ => 0) =
       (process_document_task_runs outcome).2.1) ∧
    (∀ msgs : Nat → String,
       process_document_task_runs (fun i => .error (msgs i)) =
         (.error (msgs 3), 4, [msgs 0, msgs 1, msgs 2, msgs 3])) := by
  refine ⟨fun outcome => celery_autoretry_execs_le outcome 3 0,
          fun outcome => celery_autoretry_logs outcome 3 0,
          fun msgs => ?_⟩
  simp [process_document_task_runs, celery_autoretry]

/-- C7: the cache is a get/set/delete wrapper with default TTL 300: a `set`
followed by a `get` of the same key before the TTL elapses returns the
stored JSON value, a `get` of an absent key is `None`, and a `get` after
`delete` of the key is `None`. -/
theorem cache_get_set_delete_roundtrip :
    resolveTtl Option.none = 300 ∧
    (∀ st k v ttl now now2,
       now2 < now + resolveTtl ttl →
         cacheGet (cacheSet st k v ttl now) k now2 = some v) ∧
    (∀ st k now, cacheLookup st k = Option.none → cacheGet st k now = Option.none) ∧
    (∀ st k now, cacheGet (cacheDelete st k) k now = Option.none) := by
  refine ⟨rfl, ?_, ?_, ?_⟩
  · intro st k v ttl now now2 h
    simp [cacheGet, cacheSet, cacheLookup, List.lookup, h, jsonDumps_ne_empty v]
  · intro st k now h
    simp [cacheGet, h]
  · intro st k now
    unfold cacheGet cacheDelete cacheLookup
    rw [lookup_removed]

/-! ## Concrete rows and runs used by the remaining claims -/

def sampleMetaDict : MetaDict :=
  { agreement_type := Option.none, governing_law := Option.none,
    jurisdiction := Option.none, geography := Option.none, industry := Option.none,
    effective_date := .none, expiration_date := .none }

def sampleDoc : Document :=
  { id := 1, filename := "contract.pdf", file_path := "/app/uploads/h_contract.pdf",
    file_size := 4, file_type := "pdf", upload_date := 0, processed := false,
    processing_error := Option.none, raw_text := Option.none, page_count := Option.none,
    user_id := 1, doc_metadata := Option.none }

/-- A run in which the embedding service reports unavailable (no API key). -/
def envNoEmbedding : PipelineEnv :=
  { parseResult := .ok ("text", 1), extractResult := .ok sampleMetaDict,
    embeddingAvailable := false, chunkResult := .ok [], embedResult := .ok [] }

/-- A run in which the text splitter raises. -/
def envChunkFailure : PipelineEnv :=
  { parseResult := .ok ("text", 1), extractResult := .ok sampleMetaDict,
    embeddingAvailable := true, chunkResult := .error "splitter failed",
    embedResult := .ok [] }

def uaeMetadata : DocumentMetadata :=
  { document_id := 1, agreement_type := some "NDA", governing_law := some "UAE",
    jurisdiction := some "UAE", geography := some "Middle East",
    industry := Option.none, effective_date := Option.none,
    expiration_date := Option.none }

/-- A processed document of user 1, governed by UAE law. -/
def uaeDocument : Document :=
  { id := 1, filename := "nda.pdf", file_path := "/app/uploads/h_nda.pdf",
    file_size := 4, file_type := "pdf", upload_date := 0, processed := true,
    processing_error := Option.none, raw_text := some "text", page_count := some 5,
    user_id := 1, doc_metadata := some uaeMetadata }

/-- A document owned by user 2. -/
def otherUserDocument : Document :=
  { id := 2, filename := "msa.pdf", file_path := "/app/uploads/h_msa.pdf",
    file_size := 4, file_type := "pdf", upload_date := 0, processed := true,
    processing_error := Option.none, raw_text := some "text", page_count := some 2,
    user_id := 2, doc_metadata := Option.none }

/-! ## C3, C2, C9: pipeline state and ordering -/

/-- C3: a document row is always in exactly one of the three states — not
processed (`processed` false, no error), processed (`processed` true), error
(`processed` false with `processing_error` set) — and the operations respect
them: a saved upload starts not-processed with no error, a pipeline run with
no parse/extraction failure commits the processed state, and a failing run
commits the error state carrying the failure message. -/
theorem document_three_state_machine :
    (∀ d : Document,
       docState d = .notProcessed ∨ docState d = .processedOk ∨ docState d = .errored) ∧
    (∀ f user_id new_id file_hash d,
       save_uploaded_file f user_id new_id file_hash = .ok d →
         d.processed = false ∧ d.processing_error = Option.none ∧
           docState d = .notProcessed) ∧
    (∀ env doc, pipeline_failure env = Option.none →
       docState (process_document env doc).1 = .processedOk) ∧
    (∀ env doc e, pipeline_failure env = some e →
       (process_document env doc).1.processed = false ∧
         (process_document env doc).1.processing_error = some e ∧
         docState (process_document env doc).1 = .errored) := by
  refine ⟨?_, ?_, ?_, ?_⟩
  · intro d
    cases hp : d.processed
    · cases he : d.processing_error <;> simp [docState, hp, he]
    · simp [docState, hp]
  · intro f user_id new_id file_hash d h
    simp only [save_uploaded_file] at h
    split_ifs at h
    cases h
    exact ⟨rfl, rfl, rfl⟩
  · intro env doc h
    rcases env with ⟨pr, xr, ea, cr, er⟩
    cases pr with
    | error e => simp [pipeline_failure] at h
    | ok p =>
      cases xr with
      | error e => simp [pipeline_failure] at h
      | ok md => simp [process_document, docState]
  · intro env doc e h
    rcases env with ⟨pr, xr, ea, cr, er⟩
    cases pr with
    | error e0 =>
      simp only [pipeline_failure, Option.some.injEq] at h
      subst h
      simp [process_document, docState]
    | ok p =>
      cases xr with
      | error e0 =>
        simp only [pipeline_failure, Option.some.injEq] at h
        subst h
        simp [process_document, docState]
      | ok md => simp [pipeline_failure] at h

theorem upload_loop_dispatched (saves : List (Except String Document)) :
    ∀ s f ds,
      (saves.foldl
        (fun (acc : Nat × Nat × List Nat) r =>
          match r with
          | .ok d => (acc.1 + 1, acc.2.1, acc.2.2 ++ [d.id])
          | .error _ => (acc.1, acc.2.1 + 1, acc.2.2))
        (s, f, ds)).2.2 =
      ds ++ saves.filterMap (fun r =>
        match r with
        | .ok d => some d.id
        | .error _ => Option.none) := by
  induction saves with
  | nil => intro s f ds; simp
  | cons hd t ih =>
    intro s f ds
    cases hd with
    | ok d => simp [List.foldl, ih]
    | error e => simp [List.foldl, ih]

/-- C2 (amended): the steps a pipeline run performs occur in the order
parse, extract metadata, chunk, embed, mark processed (each at most once);
`processed` is committed true exactly when the mark-processed step ran, and
that step runs only after parsing and metadata extraction; the upload
endpoint dispatches exactly one processing task per successfully saved file,
in order.  (Chunking and embedding run only when the embedding service is
available and are skipped, without preventing the processed mark, when it is
not — see the counterexample for the claim as frozen.) -/
theorem pipeline_steps_ordered_and_gated :
    (∀ env doc,
       List.Chain' (fun a b => pipeRank a < pipeRank b) (process_document env doc).2.2.2 ∧
       ((process_document env doc).1.processed = true ↔
          PipeEvent.markProcessed ∈ (process_document env doc).2.2.2) ∧
       (PipeEvent.markProcessed ∈ (process_document env doc).2.2.2 →
          PipeEvent.parse ∈ (process_document env doc).2.2.2 ∧
            PipeEvent.extractMeta ∈ (process_document env doc).2.2.2)) ∧
    (∀ saves user_id,
       (upload_documents saves user_id).2.2.1 =
         saves.filterMap (fun r =>
           match r with
           | .ok d => some d.id
           | .error _ => Option.none)) := by
  constructor
  · intro env doc
    rcases env with ⟨pr, xr, ea, cr, er⟩
    cases pr with
    | error e => refine ⟨?_, ?_, ?_⟩ <;> simp [process_document] <;> try decide
    | ok p =>
      cases xr with
      | error e => refine ⟨?_, ?_, ?_⟩ <;> simp [process_document] <;> try decide
      | ok md =>
        cases ea with
        | false => refine ⟨?_, ?_, ?_⟩ <;> simp [process_document] <;> try decide
        | true =>
          cases cr with
          | error e2 => refine ⟨?_, ?_, ?_⟩ <;> simp [process_document] <;> try decide
          | ok ct =>
            by_cases hc : ct.isEmpty
            · refine ⟨?_, ?_, ?_⟩ <;> simp [process_document, hc] <;> try decide
            · cases er with
              | error e3 =>
                refine ⟨?_, ?_, ?_⟩ <;> simp [process_document, hc] <;> try decide
              | ok embs =>
                refine ⟨?_, ?_, ?_⟩ <;> simp [process_document, hc] <;> try decide
  · intro saves user_id
    simpa [upload_documents] using upload_loop_dispatched saves 0 0 []

/-- C2, the claim as frozen, is false: in a run with the embedding service
unavailable the document is committed `processed = true` although neither the
chunking nor the embedding step ever ran, so `processed` is not set "only
after all preceding steps have run". -/
theorem pipeline_marks_processed_without_embed :
    (process_document envNoEmbedding sampleDoc).1.processed = true ∧
    PipeEvent.embed ∉ (process_document envNoEmbedding sampleDoc).2.2.2 ∧
    PipeEvent.chunk ∉ (process_document envNoEmbedding sampleDoc).2.2.2 := by
  decide

/-- C9: a chunking or embedding failure — or an unavailable embedding
service — never fails processing: the run still commits `processed = true`,
stores no chunk, and records no processing error. -/
theorem embedding_failures_do_not_fail_processing
    (env : PipelineEnv) (doc : Document) (p : String × Nat) (md : MetaDict)
    (hp : env.parseResult = .ok p) (hx : env.extractResult = .ok md)
    (hfail : env.embeddingAvailable = false ∨
             (∃ e, env.chunkResult = .error e) ∨
             (∃ e, env.embedResult = .error e)) :
    (process_document env doc).1.processed = true ∧
    (process_document env doc).2.2.1 = [] ∧
    (process_document env doc).1.processing_error = doc.processing_error := by
  rcases env with ⟨pr, xr, ea, cr, er⟩
  simp only at hp hx
  subst hp
  subst hx
  rcases hfail with h | ⟨e, h⟩ | ⟨e, h⟩ <;> simp only at h <;> subst h
  · simp [process_document]
  · cases ea <;> simp [process_document]
  · cases ea with
    | false => simp [process_document]
    | true =>
      cases cr with
      | error e2 => simp [process_document]
      | ok ct => by_cases hc : ct.isEmpty <;> simp [process_document, hc]

theorem embedding_failures_do_not_fail_processing_witness :
    (process_document envChunkFailure sampleDoc).1.processed = true ∧
    (process_document envChunkFailure sampleDoc).2.2.1 = [] ∧
    (process_document envChunkFailure sampleDoc).1.processing_error =
      sampleDoc.processing_error :=
  embedding_failures_do_not_fail_processing envChunkFailure sampleDoc ("text", 1)
    sampleMetaDict rfl rfl (Or.inr (Or.inl ⟨"splitter failed", rfl⟩))

/-! ## C8: get-document access control -/

/-- C8: with primary-key-unique ids, the get-document endpoint answers 404
iff no document has the id, 403 iff the document exists but belongs to a
different user, and otherwise returns the document, which always belongs to
the requesting user. -/
theorem get_document_endpoint_access_control
    (db : List Document) (document_id user_id : Nat)
    (hids : (db.map (fun d => d.id)).Nodup) :
    (get_document_endpoint db document_id user_id = .error 404 ↔
       ∀ d ∈ db, d.id ≠ document_id) ∧
    (get_document_endpoint db document_id user_id = .error 403 ↔
       ∃ d ∈ db, d.id = document_id ∧ d.user_id ≠ user_id) ∧
    (∀ d, get_document_endpoint db document_id user_id = .ok d →
       d ∈ db ∧ d.id = document_id ∧ d.user_id = user_id) := by
  have hinj := List.inj_on_of_nodup_map hids
  cases hfind : db.find? (fun d => d.id == document_id) with
  | none =>
    have hnone : ∀ d ∈ db, d.id ≠ document_id := by
      intro d hd
      simpa using List.find?_eq_none.mp hfind d hd
    refine ⟨?_, ?_, ?_⟩
    · simpa [get_document_endpoint, hfind] using hnone
    · simp only [get_document_endpoint, hfind]
      constructor
      · intro h; cases h
      · rintro ⟨d, hd, hid, -⟩
        exact absurd hid (hnone d hd)
    · intro d h
      simp [get_document_endpoint, hfind] at h
  | some d0 =>
    have hd0mem : d0 ∈ db := List.mem_of_find?_eq_some hfind
    have hd0id : d0.id = document_id := by simpa using List.find?_some hfind
    by_cases hu : d0.user_id = user_id
    · refine ⟨?_, ?_, ?_⟩
      · simp only [get_document_endpoint, hfind]
        rw [if_neg (fun hne => hne hu)]
        constructor
        · intro h; exact Except.noConfusion h
        · intro h; exact absurd hd0id (h d0 hd0mem)
      · simp only [get_document_endpoint, hfind]
        rw [if_neg (fun hne => hne hu)]
        constructor
        · intro h; exact Except.noConfusion h
        · rintro ⟨d, hd, hid, hne⟩
          have hdd0 : d = d0 := hinj hd hd0mem (hid.trans hd0id.symm)
          exact absurd (by rw [hdd0]; exact hu) hne
      · intro d h
        simp only [get_document_endpoint, hfind] at h
        rw [if_neg (fun hne => hne hu)] at h
        cases h
        exact ⟨hd0mem, hd0id, hu⟩
    · refine ⟨?_, ?_, ?_⟩
      · simp only [get_document_endpoint, hfind]
        rw [if_pos hu]
        constructor
        · intro h; exact absurd (Except.error.inj h) (by decide)
        · intro h; exact absurd hd0id (h d0 hd0mem)
      · simp only [get_document_endpoint, hfind]
        rw [if_pos hu]
        exact ⟨fun _ => ⟨d0, hd0mem, hd0id, hu⟩, fun _ => rfl⟩
      · intro d h
        simp only [get_document_endpoint, hfind] at h
        rw [if_pos hu] at h
        exact Except.noConfusion h

theorem get_document_endpoint_access_control_witness :
    get_document_endpoint [uaeDocument, otherUserDocument] 2 1 = .error 403 :=
  (get_document_endpoint_access_control [uaeDocument, otherUserDocument] 2 1
      (by decide)).2.1.mpr
    ⟨otherUserDocument, by decide, rfl, by decide⟩

/-! ## C1, C4: the `Document.processed is True` slip -/

/-- C1 at a concrete input: the question "Which agreements are governed by
UAE law?" is translated to the filter governing_law = UAE, the user owns one
processed document satisfying it, yet `execute_query` returns no result and
`total_results = 0` — the base where clause carries `Document.processed is
True`, which is the constant SQL `false` (see `processed_is_true_clause`),
so the mass-interrogation query returns no documents for any input.  The
claimed result would be the one matching document. -/
theorem fetch_matching_documents_returns_empty_bug :
    (rule_based_analysis "Which agreements are governed by UAE law?").filters =
      [("governing_law", "UAE")] ∧
    execute_query_no_llm [uaeDocument] "Which agreements are governed by UAE law?" 1 10 1
      Option.none "relevance" "desc" = ([], 0) ∧
    claimed_matching_documents [uaeDocument] 1 [("governing_law", "UAE")] =
      [uaeDocument] := by
  refine ⟨by decide, by decide, by decide⟩

/-- C4 at a concrete input: user 1 owns one processed document, so the
claimed `processed_documents` is 1, but `get_dashboard_stats` computes 0 —
its count carries the same `Document.processed is True` clause (the constant
SQL `false`).  The other figures of the claim behave as stated: one total
document, the UAE governing law reported under `jurisdictions`, the cache
write with TTL 300 on a miss, and the dashboard key deletion after a
successful upload. -/
theorem dashboard_processed_count_zero_bug :
    (get_dashboard_stats Option.none [uaeDocument] 1).1.total_documents = 1 ∧
    (get_dashboard_stats Option.none [uaeDocument] 1).1.processed_documents = 0 ∧
    claimed_processed_count [uaeDocument] 1 = 1 ∧
    (get_dashboard_stats Option.none [uaeDocument] 1).2 = some 300 ∧
    (get_dashboard_stats Option.none [uaeDocument] 1).1.jurisdictions "UAE" = 1 ∧
    (get_dashboard_stats Option.none [uaeDocument] 1).1.agreement_types "NDA" = 1 ∧
    (upload_documents [Except.ok uaeDocument] 1).2.2.2 = some (dashboardCacheKey 1) := by
  refine ⟨by decide, by decide, by decide, by decide, by decide, by decide, by decide⟩

end LegalIntel
